import Mathlib

set_option maxRecDepth 40000
set_option maxHeartbeats 1000000

/-!
Shallow embedding of the transcript-analytics core of
`src/transcription/enhanced_deepgram.py` (class `EnhancedDeepgramTranscriber`).

The embedded pieces are:
* the speaker attribution performed by `_process_advanced_response`
  (per-utterance channel mapping and the per-word speaker fallback),
* the lexical sentiment score computed inline in `_process_advanced_response`,
* `_check_script_compliance`,
* the upsell part of `_extract_sales_metrics`,
* `_analyze_interaction_quality`.

Python floats are modelled as rationals, Python strings as Lean strings over
their character lists, Python dicts keyed by speaker role as association
lists.  Each definition cites the source lines it translates.
-/

/-- Speaker role assigned to a diarized utterance. -/
inductive Role where
  | employee
  | customer
  deriving DecidableEq, BEq, Repr

/-- Python `str.lower()`: lower-case every character (the source lower-cases
transcripts and utterance text before every scan). -/
def strLower (s : String) : String := ⟨s.data.map Char.toLower⟩

/-- `n` occurs as a contiguous run inside `h`. -/
def listIsInfixOf (n : List Char) : List Char → Bool
  | [] => n.isEmpty
  | c :: t => n.isPrefixOf (c :: t) || listIsInfixOf n t

/-- Python `needle in haystack`: substring test. -/
def strContains (haystack needle : String) : Bool :=
  listIsInfixOf needle.data haystack.data

/-- Python `sep.join(parts)`. -/
def joinWith (sep : String) : List String → String
  | [] => ""
  | [s] => s
  | s :: rest => s ++ sep ++ joinWith sep rest

/-- Index of the first occurrence of `n` in `h` (Python `str.find`, which the
source only calls on needles known to be present; on an absent needle this
model returns `h.length` where Python would return `-1`). -/
def listFind (h n : List Char) : Nat :=
  if n.isPrefixOf h then 0
  else
    match h with
    | [] => 0
    | _ :: t => listFind t n + 1

/-- Python `haystack.find(needle)` for a present needle. -/
def strFind (haystack needle : String) : Nat := listFind haystack.data needle.data

/-- Number of non-overlapping occurrences of `n` in `h` (Python `str.count`;
for an empty needle Python returns `len + 1`). -/
def countOccs (h n : List Char) : Nat :=
  if n = [] then h.length + 1
  else
    match h with
    | [] => 0
    | c :: t =>
      if n.isPrefixOf (c :: t) then 1 + countOccs (t.drop (n.length - 1)) n
      else countOccs t n
termination_by h.length
decreasing_by
  all_goals (try simp_wf)
  all_goals omega

/-- Python `haystack.count(needle)`. -/
def strCount (haystack needle : String) : Nat := countOccs haystack.data needle.data

/-- Line 225 of `enhanced_deepgram.py`: the positive sentiment lexicon. -/
def positive_words : List String :=
  ["thank", "great", "perfect", "excellent", "happy", "good", "yes"]

/-- Line 226: the negative sentiment lexicon. -/
def negative_words : List String :=
  ["problem", "issue", "no", "cannot", "sorry", "unfortunately"]

/-- Lines 228-229: `sum(word in transcript_lower for word in words)` — the
number of lexicon words occurring (at least once) as substrings of `t`. -/
def countPresent (words : List String) (t : String) : Nat :=
  (words.filter (fun w => strContains t w)).length

/-- Lines 224-235: the inline sentiment computation over the lower-cased
transcript: `(positive - negative) / (positive + negative)` when the counts
are not both zero, else `0.0`. -/
def sentimentScore (transcript : String) : ℚ :=
  let tl := strLower transcript
  let p := countPresent positive_words tl
  let n := countPresent negative_words tl
  if p + n > 0 then ((p : ℚ) - (n : ℚ)) / ((p : ℚ) + (n : ℚ)) else 0

/-- One utterance of the provider response (fields read from
`response.results.utterances` at lines 154-165). -/
structure RawUtterance where
  transcript : String
  start : ℚ
  end_ : ℚ
  confidence : ℚ
  channel : Nat
  deriving DecidableEq, Repr

/-- One word of the provider response (lines 176-198); `speaker` is `none`
when the word object lacks the `speaker` attribute. -/
structure RawWord where
  word : String
  speaker : Option Nat
  start : ℚ
  end_ : ℚ
  deriving DecidableEq, Repr

/-- The slice of the Deepgram response that `_process_advanced_response`
reads: `channels[0].alternatives[0].transcript` / `.confidence`, the optional
utterance list and the optional word list.  `utterances = none` models a
response object without the attribute; `some []` models an empty (falsy)
list, which also sends the source to the word fallback. -/
structure DGResponse where
  transcript : String
  confidence : ℚ
  utterances : Option (List RawUtterance)
  words : Option (List RawWord)
  deriving DecidableEq, Repr

/-- A labelled utterance as stored into `result['utterances']`.  The
diarized path (lines 158-165) stores `confidence` and `channel`; the word
fallback (lines 185-208) stores neither, hence the `Option` fields. -/
structure Utt where
  speaker : Role
  text : String
  start : ℚ
  end_ : ℚ
  confidence : Option ℚ
  channel : Option Nat
  deriving DecidableEq, Repr

/-- Default utterance used only as the `getD` fallback in theorem
statements that index into utterance lists. -/
def uttDefault : Utt :=
  { speaker := Role.employee, text := "", start := 0, end_ := 0,
    confidence := none, channel := none }

/-- Line 110: `employee_channel = 0 if call_direction == "inbound" else 1`. -/
def employee_channel (call_direction : String) : Nat :=
  if call_direction = "inbound" then 0 else 1

/-- Line 111: `customer_channel = 1 if call_direction == "inbound" else 0`. -/
def customer_channel (call_direction : String) : Nat :=
  if call_direction = "inbound" then 1 else 0

/-- Line 156: `'employee' if utterance.channel == employee_channel else
'customer'`. -/
def utteranceLabel (call_direction : String) (ru : RawUtterance) : Role :=
  if ru.channel = employee_channel call_direction then Role.employee else Role.customer

/-- Line 179: `'employee' if word.speaker == 0 else 'customer'` (note: the
word fallback does not consult `call_direction`). -/
def wordLabel (speakerIdx : Nat) : Role :=
  if speakerIdx = 0 then Role.employee else Role.customer

/-- Loop state of the word-coalescing fallback (lines 172-174). -/
structure WordState where
  current_speaker : Option Role
  current_utterance : List String
  current_start : ℚ
  acc : List Utt
  deriving Repr

/-- Lines 183-191 and 201-209: emit the pending utterance when both
`current_utterance` and `current_speaker` are truthy. -/
def flushUtterance (st : WordState) (endTime : ℚ) : List Utt :=
  match st.current_speaker, st.current_utterance with
  | some cs, t :: ts =>
      st.acc ++ [{ speaker := cs, text := joinWith " " (t :: ts),
                   start := st.current_start, end_ := endTime,
                   confidence := none, channel := none }]
  | _, _ => st.acc

/-- Lines 176-198: one iteration of the word loop.  Words without a
`speaker` attribute are skipped entirely. -/
def wordStep (st : WordState) (w : RawWord) : WordState :=
  match w.speaker with
  | none => st
  | some s =>
      let lbl := wordLabel s
      if some lbl = st.current_speaker then
        { st with current_utterance := st.current_utterance ++ [w.word] }
      else
        { current_speaker := some lbl
          current_utterance := [w.word]
          current_start := w.start
          acc := flushUtterance st w.start }

/-- Lines 171-209: the whole word fallback.  The final flush uses the last
loop variable's `end` (`word.end if 'word' in locals()`), i.e. the end of the
last word of the list; the `current_start + 1` default is the (dead) branch
for an empty word list. -/
def processWords (ws : List RawWord) : List Utt :=
  let st := ws.foldl wordStep
    { current_speaker := none, current_utterance := [], current_start := 0, acc := [] }
  match ws.getLast? with
  | some w => flushUtterance st w.end_
  | none => flushUtterance st (st.current_start + 1)

/-- `result['speakers'][role]['utterances']`: both paths append each
utterance's text to its speaker's list in iteration order, which equals
filtering the labelled utterance list by role. -/
def speakerTexts (uts : List Utt) (r : Role) : List String :=
  (uts.filter (fun u => decide (u.speaker = r))).map Utt.text

/-- Line 217: `service_keywords` of the topic scan. -/
def service_keywords_topics : List String :=
  ["oil change", "brake", "tire", "battery", "inspection", "alignment"]

/-- `result['speakers'][role]` (lines 119-128). -/
structure SpeakerInfo where
  channel : Nat
  utterances : List String
  deriving DecidableEq, Repr

/-- The claim-relevant slice of the dictionary built by
`_process_advanced_response` (lines 113-237).  `sentiment_by_speaker`
models `result['sentiment']['by_speaker']`, initialised to the empty dict at
line 133 and never written afterwards. -/
structure ProcessResult where
  transcript : String
  confidence : ℚ
  employee : SpeakerInfo
  customer : SpeakerInfo
  sentiment_overall : ℚ
  sentiment_by_speaker : List (Role × ℚ)
  topics : List String
  utterances : List Utt
  deriving DecidableEq, Repr

/-- `_process_advanced_response` (lines 104-237), restricted to the fields
the analytics read. -/
def process_advanced_response (resp : DGResponse) (call_direction : String) : ProcessResult :=
  let uts : List Utt :=
    match resp.utterances with
    | some (u :: us) =>
        (u :: us).map (fun ru =>
          { speaker := utteranceLabel call_direction ru, text := ru.transcript,
            start := ru.start, end_ := ru.end_,
            confidence := some ru.confidence, channel := some ru.channel })
    | _ =>
        match resp.words with
        | some ws => processWords ws
        | none => []
  let transcript_lower := strLower resp.transcript
  { transcript := resp.transcript
    confidence := resp.confidence
    employee := { channel := employee_channel call_direction,
                  utterances := speakerTexts uts Role.employee }
    customer := { channel := customer_channel call_direction,
                  utterances := speakerTexts uts Role.customer }
    sentiment_overall := sentimentScore resp.transcript
    sentiment_by_speaker := []
    topics := service_keywords_topics.filter (fun k => strContains transcript_lower k)
    utterances := uts }

/-- Lines 32-37: `self.script_keywords`, the ordered component → trigger
phrase table.  Note the capital `I` in `"how can I help"`, exactly as in the
source. -/
def script_keywords : List (String × List String) :=
  [("greeting", ["thank you for calling", "how can I help"]),
   ("appointment_confirm", ["scheduled for", "confirm your appointment"]),
   ("upsell", ["recommend", "also suggest", "while you\x27re here"]),
   ("closing", ["anything else", "thank you for choosing"])]

/-- `compliance['details'][component]` entry (lines 261-272). -/
structure ComponentDetail where
  component : String
  found : Bool
  keyword : Option String
  expected : Option (List String)
  deriving DecidableEq, Repr

/-- The dictionary returned by `_check_script_compliance` (lines 242-279). -/
structure Compliance where
  score : ℚ
  missing_components : List String
  found_components : List String
  details : List ComponentDetail
  deriving DecidableEq, Repr

/-- Lines 256-265: the inner keyword loop with `break` — the first keyword
(in list order) contained in the haystack, if any. -/
def findKeyword : List String → String → Option String
  | [], _ => none
  | k :: ks, haystack =>
      if strContains haystack k then some k else findKeyword ks haystack

/-- Lines 255-272: the body of the per-component loop. -/
def complianceStep (empText : String) (c : Compliance) (entry : String × List String) :
    Compliance :=
  match findKeyword entry.2 empText with
  | some k =>
      { c with
        found_components := c.found_components ++ [entry.1]
        details := c.details ++
          [{ component := entry.1, found := true, keyword := some k, expected := none }] }
  | none =>
      { c with
        missing_components := c.missing_components ++ [entry.1]
        details := c.details ++
          [{ component := entry.1, found := false, keyword := none, expected := some entry.2 }] }

/-- `_check_script_compliance` (lines 239-279): scans the lower-cased
join of the employee role's utterance texts and scores coverage as
`(found / total) * 100`.  (The lower-cased full transcript is also computed
at line 249 but never used.) -/
def check_script_compliance (employee_texts : List String) : Compliance :=
  let employee_utterances := strLower (joinWith " " employee_texts)
  let c := script_keywords.foldl (complianceStep employee_utterances)
    { score := 0, missing_components := [], found_components := [], details := [] }
  { c with
    score := ((c.found_components.length : ℚ) / (script_keywords.length : ℚ)) * 100 }

/-- Lines 327-330: `upsell_keywords` of `_extract_sales_metrics`. -/
def upsell_keywords : List String :=
  ["also recommend", "while you\x27re here", "might as well", "should also",
   "suggest checking"]

/-- Line 336: the acceptance words scanned in the forward window. -/
def accept_words : List String :=
  ["yes", "sure", "okay", "sounds good", "let\x27s do"]

/-- Line 335: `transcript[transcript.find(keyword) : transcript.find(keyword) + 200]`,
the 200-character forward window from the first occurrence of `k` in `t`. -/
def windowAt (t k : String) : String :=
  ⟨(t.data.drop (strFind t k)).take 200⟩

/-- Lines 331-338: the upsell loop of `_extract_sales_metrics` with its
`break`: at the first trigger phrase contained in the transcript, set
`upsell_attempted` and decide `upsell_accepted` from the forward window. -/
def upsellLoop (t : String) : List String → Bool × Bool
  | [] => (false, false)
  | k :: ks =>
      if strContains t k then
        (true, accept_words.any (fun a => strContains (windowAt t k) a))
      else upsellLoop t ks

/-- The `(upsell_attempted, upsell_accepted)` pair of
`_extract_sales_metrics`, computed over the lower-cased transcript
(line 296). -/
def extract_upsell (transcript : String) : Bool × Bool :=
  upsellLoop (strLower transcript) upsell_keywords

/-- The first upsell trigger phrase (in table order) occurring in `t` —
the phrase at which the source loop stops. -/
def firstUpsellTrigger (t : String) : Option String :=
  findKeyword upsell_keywords t

/-- Whether an acceptance word occurs in the 200-character window that
starts at the first occurrence of the first matched upsell trigger; `false`
when no trigger matches. -/
def upsellWindowAccepted (t : String) : Bool :=
  match firstUpsellTrigger t with
  | none => false
  | some k => accept_words.any (fun a => strContains (windowAt t k) a)

/-- Lines 398-401: `empathy_phrases`. -/
def empathy_phrases : List String :=
  ["understand", "sorry to hear", "appreciate", "thank you", "happy to help",
   "no problem", "absolutely"]

/-- Lines 412-415: `professional_indicators`. -/
def professional_indicators : List String :=
  ["sir", "ma\x27am", "please", "thank you", "appreciate", "certainly",
   "absolutely", "happy to"]

/-- Lines 416-418: `unprofessional_indicators`. -/
def unprofessional_indicators : List String :=
  ["yeah", "nah", "dunno", "gonna", "wanna"]

/-- Lines 379-388: one role's summed utterance duration
`sum(u['end'] - u['start'] for u in utterances if u['speaker'] == role)`. -/
def roleTime (uts : List Utt) (r : Role) : ℚ :=
  ((uts.filter (fun u => decide (u.speaker = r))).map (fun u => u.end_ - u.start)).sum

/-- Line 390: `total_time = employee_time + customer_time`. -/
def totalTalk (uts : List Utt) : ℚ :=
  roleTime uts Role.employee + roleTime uts Role.customer

/-- The dictionary returned by `_analyze_interaction_quality` (lines
353-360).  `talkRatioPct` models the `talk_ratio` dict as an association
list: it stays empty unless the source writes both percentages at lines
392-395. -/
structure QualityMetrics where
  interruptions : Nat
  silence_periods : Nat
  talkRatioPct : List (Role × ℚ)
  average_response_time : ℚ
  empathy_indicators : Nat
  professionalism_score : ℚ
  deriving DecidableEq, Repr

/-- `_analyze_interaction_quality` (lines 350-428). -/
def analyze_interaction_quality (utterances : List Utt) : QualityMetrics :=
  if utterances = [] then
    { interruptions := 0, silence_periods := 0, talkRatioPct := [],
      average_response_time := 0, empathy_indicators := 0, professionalism_score := 0 }
  else
    let pairs := utterances.zip utterances.tail
    let interruptions := (pairs.filter (fun q => decide (q.2.start < q.1.end_))).length
    let silence_periods := (pairs.filter (fun q => decide (3 < q.2.start - q.1.end_))).length
    let employee_time := roleTime utterances Role.employee
    let customer_time := roleTime utterances Role.customer
    let total_time := employee_time + customer_time
    let talk : List (Role × ℚ) :=
      if 0 < total_time then
        [(Role.employee, employee_time / total_time * 100),
         (Role.customer, customer_time / total_time * 100)]
      else []
    let employee_text := joinWith " "
      ((utterances.filter (fun u => decide (u.speaker = Role.employee))).map
        (fun u => strLower u.text))
    let empathy := (empathy_phrases.map (fun p => strCount employee_text p)).sum
    let prof := (professional_indicators.map (fun w => strCount employee_text w)).sum
    let unprof := (unprofessional_indicators.map (fun w => strCount employee_text w)).sum
    let profScore : ℚ :=
      if 0 < prof + unprof then ((prof : ℚ) / ((prof : ℚ) + (unprof : ℚ))) * 100 else 0
    { interruptions := interruptions, silence_periods := silence_periods,
      talkRatioPct := talk, average_response_time := 0,
      empathy_indicators := empathy, professionalism_score := profScore }

/-- The channel/speaker-index-to-role assignment exactly as the
specification words it (claim C3): when `call_direction` is `"inbound"`,
index 0 is the employee and index 1 the customer; when `"outbound"` the
mapping is swapped.  Stated only to compare against the behaviour of the
source functions. -/
def claimChannelRole (call_direction : String) (idx : Nat) : Role :=
  if call_direction = "inbound" then
    (if idx = 0 then Role.employee else Role.customer)
  else
    (if idx = 0 then Role.customer else Role.employee)

/-- C4: for every input, `sentiment.overall` is the lexical score over the
lower-cased transcript: exactly `0` when no positive- and no negative-lexicon
word occurs, else `(positive - negative) / (positive + negative)`, and it
always lies in `[-1, 1]`. -/
theorem C4_sentiment_overall (resp : DGResponse) (call_direction : String) :
    (process_advanced_response resp call_direction).sentiment_overall
      = (if countPresent positive_words (strLower resp.transcript)
            + countPresent negative_words (strLower resp.transcript) = 0 then 0
         else (((countPresent positive_words (strLower resp.transcript) : ℚ)
                 - (countPresent negative_words (strLower resp.transcript) : ℚ))
               / ((countPresent positive_words (strLower resp.transcript) : ℚ)
                 + (countPresent negative_words (strLower resp.transcript) : ℚ))))
    ∧ -1 ≤ (process_advanced_response resp call_direction).sentiment_overall
    ∧ (process_advanced_response resp call_direction).sentiment_overall ≤ 1 := by
  have hp : (process_advanced_response resp call_direction).sentiment_overall
      = sentimentScore resp.transcript := rfl
  rw [hp]
  simp only [sentimentScore]
  set p := countPresent positive_words (strLower resp.transcript) with hpdef
  set n := countPresent negative_words (strLower resp.transcript) with hndef
  rcases Nat.eq_zero_or_pos (p + n) with h0 | hpos
  · simp [h0]
  · have hne : ¬ (p + n = 0) := Nat.pos_iff_ne_zero.mp hpos
    have hq : (0 : ℚ) < (p : ℚ) + (n : ℚ) := by exact_mod_cast hpos
    have hp0 : (0 : ℚ) ≤ (p : ℚ) := Nat.cast_nonneg p
    have hn0 : (0 : ℚ) ≤ (n : ℚ) := Nat.cast_nonneg n
    rw [if_pos hpos, if_neg hne]
    refine ⟨rfl, ?_, ?_⟩
    · rw [le_div_iff₀ hq]
      linarith
    · rw [div_le_one hq]
      linarith

/-- The compliance `foldl` appends each component name to exactly one of
`found_components` / `missing_components`, according to whether one of its
trigger phrases occurs, and never touches `score`. -/
theorem compliance_foldl (E : String) (kws : List (String × List String)) :
    ∀ c : Compliance,
      ((kws.foldl (complianceStep E) c).found_components
          = c.found_components
            ++ (kws.filter (fun e => (findKeyword e.2 E).isSome)).map Prod.fst)
      ∧ ((kws.foldl (complianceStep E) c).missing_components
          = c.missing_components
            ++ (kws.filter (fun e => !(findKeyword e.2 E).isSome)).map Prod.fst)
      ∧ (kws.foldl (complianceStep E) c).score = c.score := by
  induction kws with
  | nil => intro c; simp
  | cons e kws ih =>
    intro c
    have ihc := ih (complianceStep E c e)
    cases h : findKeyword e.2 E with
    | none =>
      refine ⟨?_, ?_, ?_⟩
      · rw [List.foldl_cons, ihc.1]
        simp [complianceStep, h, List.filter_cons]
      · rw [List.foldl_cons, ihc.2.1]
        simp [complianceStep, h, List.filter_cons]
      · rw [List.foldl_cons, ihc.2.2]
        simp [complianceStep, h]
    | some k =>
      refine ⟨?_, ?_, ?_⟩
      · rw [List.foldl_cons, ihc.1]
        simp [complianceStep, h, List.filter_cons]
      · rw [List.foldl_cons, ihc.2.1]
        simp [complianceStep, h, List.filter_cons]
      · rw [List.foldl_cons, ihc.2.2]
        simp [complianceStep, h]

/-- C5: `found_components` and `missing_components` partition the fixed
component set exactly (no duplicates, no omissions), and
`score = 100 * found / total`. -/
theorem C5_partition (texts : List String) :
    List.Perm
      ((check_script_compliance texts).found_components
        ++ (check_script_compliance texts).missing_components)
      (script_keywords.map Prod.fst)
    ∧ ((check_script_compliance texts).found_components
        ++ (check_script_compliance texts).missing_components).Nodup
    ∧ (check_script_compliance texts).score
        = 100 * ((check_script_compliance texts).found_components.length : ℚ)
            / ((script_keywords.map Prod.fst).length : ℚ) := by
  obtain ⟨hf, hm, -⟩ := compliance_foldl (strLower (joinWith " " texts)) script_keywords
    { score := 0, missing_components := [], found_components := [], details := [] }
  have hperm := List.filter_append_perm
    (fun e => (findKeyword e.2 (strLower (joinWith " " texts))).isSome) script_keywords
  have hpermMap := hperm.map Prod.fst
  rw [List.map_append] at hpermMap
  have hnd : (script_keywords.map Prod.fst).Nodup := by decide
  simp only [check_script_compliance] at *
  simp only [hf, hm, List.nil_append] at *
  refine ⟨hpermMap, (hpermMap.nodup_iff).mpr hnd, ?_⟩
  simp only [List.length_map]
  ring

/-- Filtering a successor-mapped list keeps as many elements as filtering
the original with the shifted predicate. -/
theorem length_filter_map_succ (q : Nat → Bool) (l : List Nat) :
    ((l.map Nat.succ).filter q).length = (l.filter (fun n => q (n + 1))).length := by
  induction l with
  | nil => rfl
  | cons a l ih =>
    simp only [List.map_cons, List.filter_cons, Nat.succ_eq_add_one]
    cases h : q (a + 1) <;> simp [h, ih]

/-- Counting adjacent pairs via `zip` with the tail (as the source loops
`for i in range(1, len)`) equals counting positions `j` of the index range
compared with their successors. -/
theorem adjPairs_length (p : Utt → Utt → Bool) :
    ∀ l : List Utt,
      ((l.zip l.tail).filter (fun q => p q.1 q.2)).length
        = ((List.range (l.length - 1)).filter
            (fun j => p (l.getD j uttDefault) (l.getD (j + 1) uttDefault))).length
  | [] => rfl
  | [a] => rfl
  | a :: b :: t => by
      have ih := adjPairs_length p (b :: t)
      have h2 := length_filter_map_succ
        (fun j => p ((a :: b :: t : List Utt).getD j uttDefault)
                    ((a :: b :: t : List Utt).getD (j + 1) uttDefault))
        (List.range (t.length + 1 - 1))
      simp only [List.zip_cons_cons, List.tail_cons, List.filter_cons,
        List.length_cons, Nat.add_sub_cancel, List.getD_cons_zero,
        List.getD_cons_succ, List.range_succ_eq_map, Nat.succ_eq_add_one] at ih h2 ⊢
      by_cases hpb : p a b = true
      · simp only [if_pos hpb, List.length_cons]
        rw [ih, ← h2]
      · simp only [if_neg hpb]
        rw [ih, ← h2]

/-- C8: `interruptions` counts exactly the indices `i ≥ 1` whose utterance
starts strictly before its immediate predecessor ends (and only those); on
the scenario employee `[0,5]`, customer `[5.2,12]` it is `0`, and moving the
customer start to `4.0` makes it `1`. -/
theorem C8_interruptions (uts : List Utt) :
    (analyze_interaction_quality uts).interruptions
      = ((List.range (uts.length - 1)).filter
          (fun j => decide ((uts.getD (j + 1) uttDefault).start
                              < (uts.getD j uttDefault).end_))).length
    ∧ (analyze_interaction_quality
        [{ speaker := Role.employee, text := "", start := 0, end_ := 5,
           confidence := none, channel := none },
         { speaker := Role.customer, text := "", start := 26/5, end_ := 12,
           confidence := none, channel := none }]).interruptions = 0
    ∧ (analyze_interaction_quality
        [{ speaker := Role.employee, text := "", start := 0, end_ := 5,
           confidence := none, channel := none },
         { speaker := Role.customer, text := "", start := 4, end_ := 12,
           confidence := none, channel := none }]).interruptions = 1 := by
  have hgen : ∀ l : List Utt, (analyze_interaction_quality l).interruptions
      = ((List.range (l.length - 1)).filter
          (fun j => decide ((l.getD (j + 1) uttDefault).start
                              < (l.getD j uttDefault).end_))).length := by
    intro l
    by_cases h : l = []
    · subst h; rfl
    · have hunf : (analyze_interaction_quality l).interruptions
          = ((l.zip l.tail).filter
              (fun q => decide (q.2.start < q.1.end_))).length := by
        simp [analyze_interaction_quality, h]
      rw [hunf]
      exact adjPairs_length (fun u v => decide (v.start < u.end_)) l
  refine ⟨hgen uts, ?_, ?_⟩
  · rw [hgen]
    norm_num [List.filter_cons, List.filter_nil, List.range_succ, List.range_zero]
  · rw [hgen]
    norm_num [List.filter_cons, List.filter_nil, List.range_succ, List.range_zero]

/-- C9: `silence_periods` counts exactly the adjacent gaps strictly greater
than 3.0 seconds: a 3.5s gap counts, a 2.9s gap does not, and a gap of
exactly 3.0s does not. -/
theorem C9_silence_periods (uts : List Utt) :
    (analyze_interaction_quality uts).silence_periods
      = ((List.range (uts.length - 1)).filter
          (fun j => decide (3 < (uts.getD (j + 1) uttDefault).start
                              - (uts.getD j uttDefault).end_))).length
    ∧ (analyze_interaction_quality
        [{ speaker := Role.employee, text := "", start := 0, end_ := 1,
           confidence := none, channel := none },
         { speaker := Role.customer, text := "", start := 9/2, end_ := 5,
           confidence := none, channel := none }]).silence_periods = 1
    ∧ (analyze_interaction_quality
        [{ speaker := Role.employee, text := "", start := 0, end_ := 1,
           confidence := none, channel := none },
         { speaker := Role.customer, text := "", start := 39/10, end_ := 5,
           confidence := none, channel := none }]).silence_periods = 0
    ∧ (analyze_interaction_quality
        [{ speaker := Role.employee, text := "", start := 0, end_ := 1,
           confidence := none, channel := none },
         { speaker := Role.customer, text := "", start := 4, end_ := 5,
           confidence := none, channel := none }]).silence_periods = 0 := by
  have hgen : ∀ l : List Utt, (analyze_interaction_quality l).silence_periods
      = ((List.range (l.length - 1)).filter
          (fun j => decide (3 < (l.getD (j + 1) uttDefault).start
                              - (l.getD j uttDefault).end_))).length := by
    intro l
    by_cases h : l = []
    · subst h; rfl
    · have hunf : (analyze_interaction_quality l).silence_periods
          = ((l.zip l.tail).filter
              (fun q => decide (3 < q.2.start - q.1.end_))).length := by
        simp [analyze_interaction_quality, h]
      rw [hunf]
      exact adjPairs_length (fun u v => decide (3 < v.start - u.end_)) l
  refine ⟨hgen uts, ?_, ?_, ?_⟩
  · rw [hgen]
    norm_num [List.filter_cons, List.filter_nil, List.range_succ, List.range_zero]
  · rw [hgen]
    norm_num [List.filter_cons, List.filter_nil, List.range_succ, List.range_zero]
  · rw [hgen]
    norm_num [List.filter_cons, List.filter_nil, List.range_succ, List.range_zero]

/-- C6 (amended): the talk-ratio percentages sum exactly to 100 whenever the
combined summed utterance duration is positive — but when the combined
duration is not positive (or the utterance list is empty) the `talk_ratio`
dict stays empty: it has no role entries at all. -/
theorem C6_talk_sum (uts : List Utt) :
    (((analyze_interaction_quality uts).talkRatioPct).map Prod.snd).sum
        = (if uts ≠ [] ∧ 0 < roleTime uts Role.employee + roleTime uts Role.customer
           then 100 else 0)
    ∧ ((analyze_interaction_quality uts).talkRatioPct).map Prod.fst
        = (if uts ≠ [] ∧ 0 < roleTime uts Role.employee + roleTime uts Role.customer
           then [Role.employee, Role.customer] else []) := by
  by_cases h : uts = []
  · subst h
    simp [analyze_interaction_quality, roleTime]
  · by_cases ht : 0 < roleTime uts Role.employee + roleTime uts Role.customer
    · have hne : roleTime uts Role.employee + roleTime uts Role.customer ≠ 0 :=
        ne_of_gt ht
      have htalk : (analyze_interaction_quality uts).talkRatioPct
          = [(Role.employee,
                roleTime uts Role.employee
                  / (roleTime uts Role.employee + roleTime uts Role.customer) * 100),
             (Role.customer,
                roleTime uts Role.customer
                  / (roleTime uts Role.employee + roleTime uts Role.customer) * 100)] := by
        simp [analyze_interaction_quality, h, ht]
      rw [htalk, if_pos (And.intro h ht), if_pos (And.intro h ht)]
      constructor
      · simp only [List.map_cons, List.map_nil, List.sum_cons, List.sum_nil]
        field_simp
        ring
      · simp
    · have htalk : (analyze_interaction_quality uts).talkRatioPct = [] := by
        simp [analyze_interaction_quality, h, ht]
      have hcond : ¬ (uts ≠ [] ∧
          0 < roleTime uts Role.employee + roleTime uts Role.customer) :=
        fun hc => ht hc.2
      rw [htalk, if_neg hcond, if_neg hcond]
      simp

/-- A single zero-duration employee utterance, used as the C6
counterexample input. -/
def zeroUtt : Utt :=
  { speaker := Role.employee, text := "hi", start := 0, end_ := 0,
    confidence := none, channel := none }

/-- C6 counterexample: one employee utterance of zero duration — combined
duration is 0, yet `talk_ratio` has no `employee` (or `customer`) entry with
value 0: it is the empty dict. -/
theorem C6_zero_duration_cex :
    totalTalk [zeroUtt] = 0
    ∧ ([zeroUtt] : List Utt) ≠ []
    ∧ (analyze_interaction_quality [zeroUtt]).talkRatioPct = []
    ∧ ¬ ((Role.employee, (0 : ℚ)) ∈
          (analyze_interaction_quality [zeroUtt]).talkRatioPct) := by
  have hne : ([zeroUtt] : List Utt) ≠ [] := List.cons_ne_nil _ _
  have hrc : Role.employee ≠ Role.customer := by decide
  have htalk : (analyze_interaction_quality [zeroUtt]).talkRatioPct = [] := by
    norm_num [analyze_interaction_quality, hne, hrc, zeroUtt, roleTime, List.filter_cons,
      List.filter_nil, List.map_cons, List.map_nil, List.sum_cons, List.sum_nil]
  refine ⟨?_, hne, htalk, ?_⟩
  · norm_num [totalTalk, zeroUtt, hrc, roleTime, List.filter_cons, List.filter_nil,
      List.map_cons, List.map_nil, List.sum_cons, List.sum_nil]
  · rw [htalk]
    simp

/-- The upsell loop with its `break` equals: locate the first matching
trigger phrase, then scan that trigger's forward window. -/
theorem upsellLoop_eq (t : String) (ks : List String) :
    upsellLoop t ks
      = (match findKeyword ks t with
         | none => (false, false)
         | some k => (true, accept_words.any (fun a => strContains (windowAt t k) a))) := by
  induction ks with
  | nil => rfl
  | cons k ks ih =>
    simp only [upsellLoop, findKeyword]
    cases h : strContains t k <;> simp [h, ih]

/-- C10: `upsell_accepted` can only be true when `upsell_attempted` is, and
acceptance is decided solely by whether an acceptance word occurs in the
200-character window starting at the first occurrence of the first matched
upsell trigger in the lower-cased transcript. -/
theorem C10_upsell (transcript : String) :
    (extract_upsell transcript).1 = (firstUpsellTrigger (strLower transcript)).isSome
    ∧ (extract_upsell transcript).2
        = ((extract_upsell transcript).1 && upsellWindowAccepted (strLower transcript)) := by
  have h := upsellLoop_eq (strLower transcript) upsell_keywords
  unfold extract_upsell firstUpsellTrigger upsellWindowAccepted
  rw [h]
  unfold firstUpsellTrigger
  cases hk : findKeyword upsell_keywords (strLower transcript) <;> simp [hk]

/-- The Scenario A employee transcript of the specification: all five claimed
phrases in one employee utterance. -/
def scenarioA_text : String :=
  "thank you for calling how can I help we recommend scheduled for Thursday anything else"

/-- C2 counterexample: on the Scenario A transcript the score is indeed
`100.0`, but `found_components` cannot contain the five claimed components —
the checker's component set is `greeting`, `appointment_confirm`, `upsell`,
`closing`, and no component named `qualification`, `recommendation` or
`booking` exists. -/
theorem C2_five_components_cex :
    strContains (strLower (joinWith " " [scenarioA_text])) "thank you for calling" = true
    ∧ strContains (strLower (joinWith " " [scenarioA_text])) "how can i help" = true
    ∧ strContains (strLower (joinWith " " [scenarioA_text])) "we recommend" = true
    ∧ strContains (strLower (joinWith " " [scenarioA_text])) "scheduled for thursday" = true
    ∧ strContains (strLower (joinWith " " [scenarioA_text])) "anything else" = true
    ∧ (check_script_compliance [scenarioA_text]).score = 100
    ∧ "qualification" ∉ (check_script_compliance [scenarioA_text]).found_components
    ∧ "recommendation" ∉ (check_script_compliance [scenarioA_text]).found_components
    ∧ "booking" ∉ (check_script_compliance [scenarioA_text]).found_components := by
  have hfound : (check_script_compliance [scenarioA_text]).found_components
      = ["greeting", "appointment_confirm", "upsell", "closing"] := by decide
  have hscore : (check_script_compliance [scenarioA_text]).score
      = (((check_script_compliance [scenarioA_text]).found_components.length : ℚ)
          / (script_keywords.length : ℚ)) * 100 := rfl
  refine ⟨by decide, by decide, by decide, by decide, by decide, ?_, ?_, ?_, ?_⟩
  · rw [hscore, hfound]
    norm_num [script_keywords]
  · rw [hfound]; decide
  · rw [hfound]; decide
  · rw [hfound]; decide

/-- C2 (amended): whenever the lower-cased employee text contains
"thank you for calling", "scheduled for", "recommend" and "anything else"
(as the Scenario A transcript does), the checker returns `score = 100.0` and
`found_components` equal to the four components `greeting`,
`appointment_confirm`, `upsell`, `closing`. -/
theorem C2_scenarioA_amended (texts : List String)
    (h1 : strContains (strLower (joinWith " " texts)) "thank you for calling" = true)
    (h2 : strContains (strLower (joinWith " " texts)) "scheduled for" = true)
    (h3 : strContains (strLower (joinWith " " texts)) "recommend" = true)
    (h4 : strContains (strLower (joinWith " " texts)) "anything else" = true) :
    (check_script_compliance texts).score = 100
    ∧ (check_script_compliance texts).found_components
        = ["greeting", "appointment_confirm", "upsell", "closing"] := by
  obtain ⟨hf, -, -⟩ := compliance_foldl (strLower (joinWith " " texts)) script_keywords
    { score := 0, missing_components := [], found_components := [], details := [] }
  have hfilter : (script_keywords.filter
        (fun e => (findKeyword e.2 (strLower (joinWith " " texts))).isSome)).map Prod.fst
      = ["greeting", "appointment_confirm", "upsell", "closing"] := by
    simp [script_keywords, findKeyword, List.filter_cons, h1, h2, h3, h4]
  have hfound : (check_script_compliance texts).found_components
      = ["greeting", "appointment_confirm", "upsell", "closing"] := by
    simp only [check_script_compliance]
    simp only [hf, List.nil_append, hfilter]
  have hscore : (check_script_compliance texts).score
      = (((check_script_compliance texts).found_components.length : ℚ)
          / (script_keywords.length : ℚ)) * 100 := rfl
  refine ⟨?_, hfound⟩
  rw [hscore, hfound]
  norm_num [script_keywords]

/-- Witness for `C2_scenarioA_amended`: the Scenario A transcript satisfies
its hypotheses and yields score 100 with the four components found. -/
theorem C2_scenarioA_amended_witness :
    (check_script_compliance [scenarioA_text]).score = 100
    ∧ (check_script_compliance [scenarioA_text]).found_components
        = ["greeting", "appointment_confirm", "upsell", "closing"] :=
  C2_scenarioA_amended [scenarioA_text] (by decide) (by decide) (by decide) (by decide)

/-- C7 (code bug): the lower-cased employee text contains the documented
greeting trigger "how can i help", yet `greeting` lands in
`missing_components` and the score is 0 — the stored keyword
`"how can I help"` carries a capital `I` and can never occur in a
lower-cased haystack. -/
theorem C7_greeting_keyword_bug :
    strContains (strLower (joinWith " " ["how can i help"])) "how can i help" = true
    ∧ (check_script_compliance ["how can i help"]).found_components = []
    ∧ "greeting" ∈ (check_script_compliance ["how can i help"]).missing_components
    ∧ (check_script_compliance ["how can i help"]).score = 0 := by
  have hfound : (check_script_compliance ["how can i help"]).found_components = [] := by
    decide
  have hscore : (check_script_compliance ["how can i help"]).score
      = (((check_script_compliance ["how can i help"]).found_components.length : ℚ)
          / (script_keywords.length : ℚ)) * 100 := rfl
  refine ⟨by decide, hfound, by decide, ?_⟩
  rw [hscore, hfound]
  norm_num [script_keywords]

/-- The diarized response used for claim C1: a single customer-channel
utterance saying "thank you" on an inbound call. -/
def respC1 : DGResponse :=
  { transcript := "thank you", confidence := 1,
    utterances := some [{ transcript := "thank you", start := 0, end_ := 1,
                          confidence := 1, channel := 1 }],
    words := none }

/-- C1 (code bug): `sentiment['by_speaker']` is initialised to the empty
dict at line 133 and never written afterwards — for every response and call
direction it stays empty, even when a role has attributed utterances (here
the customer says "thank you"), so it never carries the per-role lexical
sentiment the specification describes. -/
theorem C1_by_speaker_never_populated :
    (∀ (resp : DGResponse) (d : String),
        (process_advanced_response resp d).sentiment_by_speaker = [])
    ∧ (process_advanced_response respC1 "inbound").utterances.map Utt.speaker
        = [Role.customer]
    ∧ (process_advanced_response respC1 "inbound").customer.utterances
        = ["thank you"] := by
  refine ⟨fun resp d => rfl, by decide, by decide⟩

/-- The word list used for the C3 counterexample: one word with speaker
index 0. -/
def wordsC3 : List RawWord :=
  [{ word := "hello", speaker := some 0, start := 0, end_ := 1 }]

/-- The response for C3's fallback path: no utterance-level diarization,
only speaker-tagged words. -/
def respC3 : DGResponse :=
  { transcript := "hello", confidence := 1, utterances := none, words := some wordsC3 }

/-- C3 counterexample: on an outbound call handled by the per-word speaker
fallback, the utterance coalesced from speaker index 0 is labelled
`employee`, while the claimed direction-swapped mapping demands `customer`. -/
theorem C3_outbound_fallback_cex :
    (process_advanced_response respC3 "outbound").utterances.map Utt.speaker
        = [Role.employee]
    ∧ claimChannelRole "outbound" 0 = Role.customer
    ∧ Role.employee ≠ Role.customer := by
  refine ⟨by decide, by decide, by decide⟩

/-- C3 (amended): in the per-utterance channel path the role mapping is
determined solely by `call_direction` — inbound sends channel 0 to the
employee and channel 1 to the customer, outbound swaps it — but the per-word
fallback ignores `call_direction` entirely: speaker index 0 is always the
employee and any other index the customer. -/
theorem C3_channel_role_amended :
    (∀ ru : RawUtterance,
        utteranceLabel "inbound" ru
          = (if ru.channel = 0 then Role.employee else Role.customer))
    ∧ (∀ ru : RawUtterance,
        utteranceLabel "outbound" ru
          = (if ru.channel = 1 then Role.employee else Role.customer))
    ∧ wordLabel 0 = Role.employee
    ∧ (∀ s : Nat, s ≠ 0 → wordLabel s = Role.customer)
    ∧ (∀ (ws : List RawWord) (d d' tr : String) (cf : ℚ),
        (process_advanced_response
            { transcript := tr, confidence := cf, utterances := none, words := some ws }
            d).utterances
          = (process_advanced_response
              { transcript := tr, confidence := cf, utterances := none, words := some ws }
              d').utterances) := by
  refine ⟨?_, ?_, rfl, ?_, ?_⟩
  · intro ru
    have h0 : employee_channel "inbound" = 0 := by decide
    simp only [utteranceLabel, h0]
  · intro ru
    have h1 : employee_channel "outbound" = 1 := by decide
    simp only [utteranceLabel, h1]
  · intro s hs
    simp [wordLabel, hs]
  · intro ws d d' tr cf
    rfl

/-- Witness for `C3_channel_role_amended`: speaker index 1 maps to the
customer, and the fallback output is identical for inbound and outbound. -/
theorem C3_channel_role_amended_witness :
    wordLabel 1 = Role.customer
    ∧ (process_advanced_response respC3 "inbound").utterances
        = (process_advanced_response respC3 "outbound").utterances :=
  ⟨C3_channel_role_amended.2.2.2.1 1 (by decide),
   C3_channel_role_amended.2.2.2.2 wordsC3 "inbound" "outbound" "hello" 1⟩
